import Mathlib

/-!
Shallow embedding of the simple-maps client library (request executor in
src/simple_maps/util.py and payload/parameter model plus API client in
src/simple_maps/cartes.py).

Conventions of the embedding:
* Python floats are modelled as rationals (every finite float is a rational,
  and the pydantic bound checks are order comparisons).
* A Python parameter dict is an association list in insertion order; the
  value type PValue covers the value union of the Params type alias, and a
  Python None value is Option.none.
* The network is an oracle function from the issued request to a response.
  request_json returns the pair of the single request it issues and its
  result; an httpx response is modelled by its observable interface: the
  status code, the outcome of .json() (some parsed value, or none when the
  body is not valid JSON) and the .text body.
* pydantic validation is modelled by validate functions that collect the
  field-scoped range errors in field order and, as pydantic does, run the
  model validator (the category requirement) only when no field failed.
-/

namespace SimpleMaps

/-- JSON values, the decoded response type of the executor. -/
inductive Json
  | null
  | bool (b : Bool)
  | int (n : Int)
  | num (q : ℚ)
  | str (s : String)
  | arr (elems : List Json)
  | obj (fields : List (String × Json))
  deriving Repr

/-- The value union of the Params type alias in util.py:
str | int | float | bool | list of str | list of int (None is Option.none). -/
inductive PValue
  | str (s : String)
  | int (n : Int)
  | num (q : ℚ)
  | bool (b : Bool)
  | strList (l : List String)
  | intList (l : List Int)
  deriving Repr, DecidableEq

/-- A parameter mapping: keys to possibly-absent values, in insertion order. -/
abbrev Params := List (String × Option PValue)

/-- Parameters after cleaning: no absent values remain. -/
abbrev CleanParams := List (String × PValue)

abbrev Headers := List (String × String)

/-- The RequestType literal union of util.py. -/
inductive RequestType
  | get
  | put
  | post
  | delete
  deriving Repr, DecidableEq

/-- The lower-case string of the literal. -/
def RequestType.str : RequestType → String
  | .get => "get"
  | .put => "put"
  | .post => "post"
  | .delete => "delete"

/-- request_type.upper() in util.py: the upper-case rendering of each of the
four method literals. -/
def RequestType.upper : RequestType → String
  | .get => "GET"
  | .put => "PUT"
  | .post => "POST"
  | .delete => "DELETE"

/-- util._filter_none_values: a new dictionary with only the non-None values
of (data or empty). -/
def _filter_none_values (data : Option Params) : CleanParams :=
  (data.getD []).filterMap (fun p =>
    match p.2 with
    | some v => some (p.1, v)
    | none => none)

/-- Python dict assignment d[k] = v: replace in place when k exists,
append otherwise. -/
def dictSet (d : Headers) (k v : String) : Headers :=
  if d.any (fun p => p.1 == k) then
    d.map (fun p => if p.1 == k then (k, v) else p)
  else
    d ++ [(k, v)]

/-- Python dict.update: fold dictSet over the other dict in order. -/
def dictUpdate (d extra : Headers) : Headers :=
  extra.foldl (fun acc p => dictSet acc p.1 p.2) d

/-- util._build_headers: the JSON content-type headers, updated with the
caller headers when they are truthy (present and non-empty). -/
def _build_headers (extra_headers : Option Headers) : Headers :=
  let headers : Headers :=
    [("Content-Type", "application/json"), ("Accept", "application/json")]
  match extra_headers with
  | none => headers
  | some e => if e.isEmpty then headers else dictUpdate headers e

/-- The outgoing HTTP request handed to httpx.request: method string, URL,
merged headers, the params= argument, the json= argument and the timeout. -/
structure HttpRequest where
  method : String
  url : String
  headers : Headers
  queryParams : Option CleanParams
  jsonBody : Option CleanParams
  timeout : Option ℚ
  deriving Repr, DecidableEq

/-- An httpx response through its observable interface: status code, the
result of .json() (none when the body is not valid JSON) and the .text. -/
structure HttpResponse where
  status : Nat
  jsonResult : Option Json
  text : String
  deriving Repr

/-- httpx.HTTPStatusError as raised by raise_for_status, with the request
method and URL and the response status code. -/
structure HttpStatusError where
  method : String
  url : String
  status : Nat
  deriving Repr, DecidableEq

/-- httpx Response.is_success: status in the 2xx range. -/
def is_success (status : Nat) : Bool :=
  decide (200 ≤ status) && decide (status ≤ 299)

/-- util._parse_json_response: the parsed JSON on success, the object with
single key response holding the raw text when decoding fails. -/
def _parse_json_response (response : HttpResponse) : Json :=
  match response.jsonResult with
  | some j => j
  | none => Json.obj [("response", Json.str response.text)]

/-- util.request_json, with the network as an oracle. The first component is
the single request issued (params= is the cleaned dict for GET and the
Python None otherwise; json= the other way around); the second is the
returned JSON or the raised HTTPStatusError. -/
def request_json (request_type : RequestType) (url : String)
    (headers : Option Headers) (params : Option Params) (timeout : Option ℚ)
    (net : HttpRequest → HttpResponse) :
    HttpRequest × Except HttpStatusError Json :=
  let cleaned_params := _filter_none_values params
  let merged_headers := _build_headers headers
  let request : HttpRequest :=
    { method := request_type.upper
      url := url
      headers := merged_headers
      queryParams := if request_type = RequestType.get then some cleaned_params else none
      jsonBody := if request_type ≠ RequestType.get then some cleaned_params else none
      timeout := timeout }
  let response := net request
  (request,
    if is_success response.status then
      Except.ok (_parse_json_response response)
    else
      Except.error
        { method := request_type.upper, url := url, status := response.status })

/-- The Privacy enum of cartes.py (values are the wire strings). -/
inductive Privacy
  | PUBLIC
  | UNLISTED
  | PRIVATE
  deriving Repr, DecidableEq

/-- The string value of a Privacy member. -/
def Privacy.val : Privacy → String
  | .PUBLIC => "public"
  | .UNLISTED => "unlisted"
  | .PRIVATE => "private"

/-- The Permission enum of cartes.py (who can create markers). -/
inductive Permission
  | YES
  | NO
  | LOGGED
  deriving Repr, DecidableEq

/-- The string value of a Permission member. -/
def Permission.val : Permission → String
  | .YES => "yes"
  | .NO => "no"
  | .LOGGED => "only_logged_in"

/-- A pydantic validation error: a range violation scoped to one field, or
the model-level required-choice failure of check_category_provided. -/
inductive FieldError
  | range (field : String)
  | requiredChoice
  deriving Repr, DecidableEq

/-- The Latitude bound of cartes.py: Field ge -90 le 90. -/
def latitudeValid (lat : ℚ) : Bool :=
  decide (-90 ≤ lat) && decide (lat ≤ 90)

/-- The Longitude bound of cartes.py: Field ge -180 le 180. -/
def longitudeValid (lng : ℚ) : Bool :=
  decide (-180 ≤ lng) && decide (lng ≤ 180)

/-- The zoom bound: Field ge 0 le 20. -/
def zoomValid (x : ℚ) : Bool :=
  decide (0 ≤ x) && decide (x ≤ 20)

/-- The heading bound: Field ge 0 lt 360 (360 itself rejected). -/
def headingValid (x : ℚ) : Bool :=
  decide (0 ≤ x) && decide (x < 360)

/-- The pitch bound: Field ge -90 le 90. -/
def pitchValid (x : ℚ) : Bool :=
  decide (-90 ≤ x) && decide (x ≤ 90)

/-- The roll bound: Field ge -180 le 180. -/
def rollValid (x : ℚ) : Bool :=
  decide (-180 ≤ x) && decide (x ≤ 180)

/-- The speed bound: Field ge 0. -/
def speedValid (x : ℚ) : Bool :=
  decide (0 ≤ x)

/-- One required field check: empty on success, a field-scoped range error
on failure. -/
def checkField (field : String) (ok : Bool) : List FieldError :=
  if ok then [] else [FieldError.range field]

/-- One optional field check: an absent value passes, a present value is
checked against its bound. -/
def checkOptField (field : String) (p : ℚ → Bool) : Option ℚ → List FieldError
  | none => []
  | some x => checkField field (p x)

/-- MapCreatePayload: all fields optional, no cross-field invariant. -/
structure MapCreatePayload where
  title : Option String
  slug : Option String
  description : Option String
  privacy : Option Privacy
  users_can_create_markers : Option Permission
  deriving Repr, DecidableEq

/-- The all-absent MapCreatePayload (the pydantic defaults). -/
def MapCreatePayload.defaults : MapCreatePayload :=
  { title := none, slug := none, description := none, privacy := none,
    users_can_create_markers := none }

/-- MarkerCreatePayload: required map_token, bounded lat and lng, optional
category, category_name and description. -/
structure MarkerCreatePayload where
  map_token : String
  lat : ℚ
  lng : ℚ
  category : Option Int
  category_name : Option String
  description : Option String
  deriving Repr, DecidableEq

/-- The field-scoped errors of MarkerCreatePayload field validation, in
field order. -/
def MarkerCreatePayload.fieldErrors (lat lng : ℚ) : List FieldError :=
  checkField "lat" (latitudeValid lat) ++ checkField "lng" (longitudeValid lng)

/-- pydantic construction of MarkerCreatePayload: the field bounds are
checked first and their errors collected; only when every field passed does
the model validator check_category_provided run, failing when category and
category_name are both absent. -/
def MarkerCreatePayload.validate (map_token : String) (lat lng : ℚ)
    (category : Option Int) (category_name : Option String)
    (description : Option String) :
    Except (List FieldError) MarkerCreatePayload :=
  let errs := MarkerCreatePayload.fieldErrors lat lng
  if errs.isEmpty then
    if category.isNone && category_name.isNone then
      Except.error [FieldError.requiredChoice]
    else
      Except.ok { map_token := map_token, lat := lat, lng := lng,
                  category := category, category_name := category_name,
                  description := description }
  else
    Except.error errs

/-- MarkerLocationPayload: bounded lat and lng, optional telemetry fields
each with its own bound (elevation unbounded). -/
structure MarkerLocationPayload where
  lat : ℚ
  lng : ℚ
  zoom : Option ℚ
  elevation : Option ℚ
  heading : Option ℚ
  pitch : Option ℚ
  roll : Option ℚ
  speed : Option ℚ
  deriving Repr, DecidableEq

/-- The field-scoped errors of the optional telemetry fields of
MarkerLocationPayload, in field order (elevation carries no bound). -/
def telemetryErrors (zoom heading pitch roll speed : Option ℚ) : List FieldError :=
  checkOptField "zoom" zoomValid zoom
    ++ checkOptField "heading" headingValid heading
    ++ checkOptField "pitch" pitchValid pitch
    ++ checkOptField "roll" rollValid roll
    ++ checkOptField "speed" speedValid speed

/-- The field-scoped errors of MarkerLocationPayload validation, in field
order. -/
def MarkerLocationPayload.fieldErrors (lat lng : ℚ)
    (zoom heading pitch roll speed : Option ℚ) : List FieldError :=
  checkField "lat" (latitudeValid lat) ++ checkField "lng" (longitudeValid lng)
    ++ telemetryErrors zoom heading pitch roll speed

/-- pydantic construction of MarkerLocationPayload: succeeds exactly when no
field bound is violated. -/
def MarkerLocationPayload.validate (lat lng : ℚ)
    (zoom elevation heading pitch roll speed : Option ℚ) :
    Except (List FieldError) MarkerLocationPayload :=
  let errs := MarkerLocationPayload.fieldErrors lat lng zoom heading pitch roll speed
  if errs.isEmpty then
    Except.ok { lat := lat, lng := lng, zoom := zoom, elevation := elevation,
                heading := heading, pitch := pitch, roll := roll, speed := speed }
  else
    Except.error errs

/-- MapListParams: the optional filter bag of map_list. -/
structure MapListParams where
  ids : Option (List String)
  category_ids : Option (List Int)
  with_mine : Option Bool
  with_relations : Option (List String)
  order_by : Option String
  query : Option String
  response_format : Option String
  deriving Repr, DecidableEq

/-- The all-absent MapListParams (the pydantic defaults). -/
def MapListParams.defaults : MapListParams :=
  { ids := none, category_ids := none, with_mine := none,
    with_relations := none, order_by := none, query := none,
    response_format := none }

/-- The Cartes client: just the configured base URL. -/
structure Cartes where
  base_url : String
  deriving Repr, DecidableEq

/-- Cartes._auth_headers: no headers for a falsy (absent or empty) key, a
Bearer Authorization header otherwise. -/
def Cartes._auth_headers (api_key : Option String) : Option Headers :=
  match api_key with
  | none => none
  | some key => if key.isEmpty then none else some [("Authorization", "Bearer " ++ key)]

/-- Cartes.map_create: POST base/maps with the payload fields (pydantic
use_enum_values stores the enum members as their strings) as the parameter
mapping; absent payload means the default payload; the request_json timeout
argument is left at its default of 10. -/
def Cartes.map_create (c : Cartes) (payload : Option MapCreatePayload)
    (api_key : Option String) (net : HttpRequest → HttpResponse) :
    HttpRequest × Except HttpStatusError Json :=
  let request_payload := payload.getD MapCreatePayload.defaults
  request_json RequestType.post (c.base_url ++ "/maps")
    (Cartes._auth_headers api_key)
    (some [("title", request_payload.title.map PValue.str),
           ("slug", request_payload.slug.map PValue.str),
           ("description", request_payload.description.map PValue.str),
           ("privacy", request_payload.privacy.map (fun x => PValue.str x.val)),
           ("users_can_create_markers",
            request_payload.users_can_create_markers.map (fun x => PValue.str x.val))])
    (some 10) net

/-- Cartes.map_list: GET base/maps; the scalar filters always appear in the
parameter mapping (cleaning later drops the absent ones), while each
list-valued filter is added only when truthy, that is present and
non-empty. -/
def Cartes.map_list (c : Cartes) (params : Option MapListParams)
    (api_key : Option String) (net : HttpRequest → HttpResponse) :
    HttpRequest × Except HttpStatusError Json :=
  let p := params.getD MapListParams.defaults
  let base : Params :=
    [("orderBy", p.order_by.map PValue.str),
     ("query", p.query.map PValue.str),
     ("format", p.response_format.map PValue.str),
     ("withMine", p.with_mine.map PValue.bool)]
  let step1 : Params :=
    match p.ids with
    | some l => if l.isEmpty then base else base ++ [("ids[]", some (PValue.strList l))]
    | none => base
  let step2 : Params :=
    match p.category_ids with
    | some l => if l.isEmpty then step1 else step1 ++ [("category_ids[]", some (PValue.intList l))]
    | none => step1
  let request_params : Params :=
    match p.with_relations with
    | some l => if l.isEmpty then step2 else step2 ++ [("with[]", some (PValue.strList l))]
    | none => step2
  request_json RequestType.get (c.base_url ++ "/maps")
    (Cartes._auth_headers api_key) (some request_params) (some 10) net

/-! Helper lemmas shared by the claim theorems. -/

/-- A pair survives cleaning exactly when its key is bound to that present
value in the source mapping. -/
theorem mem_filter_none_values (d : Params) (k : String) (v : PValue) :
    (k, v) ∈ _filter_none_values (some d) ↔ (k, some v) ∈ d := by
  simp only [_filter_none_values, Option.getD_some, List.mem_filterMap]
  constructor
  · rintro ⟨⟨k0, v0⟩, hmem, hf⟩
    cases v0 with
    | none => simp at hf
    | some w =>
        simp only [Option.some.injEq, Prod.mk.injEq] at hf
        obtain ⟨hk, hv⟩ := hf
        subst hk
        subst hv
        exact hmem
  · intro h
    exact ⟨(k, some v), h, rfl⟩

/-- A concrete parameter mapping with the three falsy present values and one
absent value. -/
def cleaningExample : Params :=
  [("flag", some (PValue.bool false)), ("zero", some (PValue.int 0)),
   ("empty", some (PValue.str "")), ("missing", none)]

/-- C1: for a parameter mapping with distinct keys, cleaning retains a
key-value pair exactly when the key is bound to that present value in the
input (present falsy values included), and a key bound to the absent marker
does not survive with any value. -/
theorem filter_none_values_removes_exactly_absent (d : Params) (k : String)
    (v : PValue) (hnodup : (d.map Prod.fst).Nodup) :
    ((k, v) ∈ _filter_none_values (some d) ↔ (k, some v) ∈ d) ∧
    ((k, (none : Option PValue)) ∈ d → (k, v) ∉ _filter_none_values (some d)) := by
  refine ⟨mem_filter_none_values d k v, ?_⟩
  intro habs hmem
  have h2 : (k, some v) ∈ d := (mem_filter_none_values d k v).1 hmem
  have h3 := List.inj_on_of_nodup_map hnodup habs h2 rfl
  simp at h3

/-- Witness for C1 at the concrete mapping: the present boolean false
survives cleaning and the absent key is removed. -/
theorem filter_none_values_removes_exactly_absent_witness :
    ((("flag", PValue.bool false) ∈ _filter_none_values (some cleaningExample)) ↔
      ("flag", some (PValue.bool false)) ∈ cleaningExample) ∧
    ("missing", PValue.int 7) ∉ _filter_none_values (some cleaningExample) :=
  ⟨(filter_none_values_removes_exactly_absent cleaningExample "flag"
      (PValue.bool false) (by decide)).1,
   (filter_none_values_removes_exactly_absent cleaningExample "missing"
      (PValue.int 7) (by decide)).2 (by decide)⟩

/-- C2: the request issued by request_json carries the cleaned parameters as
query parameters and no JSON body when the method is GET, and carries them
as the JSON body with no query parameters when the method is PUT, POST or
DELETE. -/
theorem request_json_parameter_placement (request_type : RequestType)
    (url : String) (headers : Option Headers) (params : Option Params)
    (timeout : Option ℚ) (net : HttpRequest → HttpResponse) :
    (request_type = RequestType.get →
      (request_json request_type url headers params timeout net).1.queryParams =
          some (_filter_none_values params) ∧
      (request_json request_type url headers params timeout net).1.jsonBody = none) ∧
    (request_type ≠ RequestType.get →
      (request_json request_type url headers params timeout net).1.jsonBody =
          some (_filter_none_values params) ∧
      (request_json request_type url headers params timeout net).1.queryParams = none) := by
  constructor
  · intro h
    subst h
    simp [request_json]
  · intro h
    simp [request_json, h]

/-- Witness for C2 with a GET and a POST at the concrete mapping. -/
theorem request_json_parameter_placement_witness :
    ((request_json RequestType.get "u" none (some cleaningExample) (some 10)
        (fun _ => ⟨200, none, ""⟩)).1.queryParams =
          some (_filter_none_values (some cleaningExample)) ∧
      (request_json RequestType.get "u" none (some cleaningExample) (some 10)
        (fun _ => ⟨200, none, ""⟩)).1.jsonBody = none) ∧
    ((request_json RequestType.post "u" none (some cleaningExample) (some 10)
        (fun _ => ⟨200, none, ""⟩)).1.jsonBody =
          some (_filter_none_values (some cleaningExample)) ∧
      (request_json RequestType.post "u" none (some cleaningExample) (some 10)
        (fun _ => ⟨200, none, ""⟩)).1.queryParams = none) :=
  ⟨(request_json_parameter_placement RequestType.get "u" none
      (some cleaningExample) (some 10) (fun _ => ⟨200, none, ""⟩)).1 rfl,
   (request_json_parameter_placement RequestType.post "u" none
      (some cleaningExample) (some 10) (fun _ => ⟨200, none, ""⟩)).2 (by decide)⟩

/-- is_success is exactly the 2xx predicate. -/
theorem is_success_iff (s : Nat) : is_success s = true ↔ (200 ≤ s ∧ s ≤ 299) := by
  simp [is_success]

/-- The result component of request_json, written through the issued
request. -/
theorem request_json_snd (request_type : RequestType) (url : String)
    (headers : Option Headers) (params : Option Params) (timeout : Option ℚ)
    (net : HttpRequest → HttpResponse) :
    (request_json request_type url headers params timeout net).2 =
      (if is_success (net (request_json request_type url headers params timeout net).1).status then
        Except.ok (_parse_json_response (net (request_json request_type url headers params timeout net).1))
      else
        Except.error
          { method := request_type.upper, url := url,
            status := (net (request_json request_type url headers params timeout net).1).status }) := rfl

/-- C3: on a 2xx response, request_json never raises a decode error: a body
that is not valid JSON yields the synthetic object with the raw text under
the response key, and a valid JSON body yields the decoded value. -/
theorem request_json_decode_fallback (request_type : RequestType) (url : String)
    (headers : Option Headers) (params : Option Params) (timeout : Option ℚ)
    (net : HttpRequest → HttpResponse) (resp : HttpResponse)
    (hnet : net (request_json request_type url headers params timeout net).1 = resp)
    (h2xx : 200 ≤ resp.status ∧ resp.status ≤ 299) :
    (resp.jsonResult = none →
      (request_json request_type url headers params timeout net).2 =
        Except.ok (Json.obj [("response", Json.str resp.text)])) ∧
    (∀ j, resp.jsonResult = some j →
      (request_json request_type url headers params timeout net).2 = Except.ok j) := by
  have hsnd := request_json_snd request_type url headers params timeout net
  rw [hnet] at hsnd
  have hs : is_success resp.status = true := (is_success_iff _).2 h2xx
  rw [hsnd, if_pos hs]
  constructor
  · intro hj
    simp [_parse_json_response, hj]
  · intro j hj
    simp [_parse_json_response, hj]

/-- A network returning a 2xx response whose body is not valid JSON. -/
def malformedNet : HttpRequest → HttpResponse := fun _ => ⟨200, none, "oops"⟩

/-- A network returning a 2xx response with a valid JSON body. -/
def jsonNet : HttpRequest → HttpResponse := fun _ => ⟨201, some (Json.arr []), "[]"⟩

/-- Witness for C3 with a malformed 2xx body and with a decoded one. -/
theorem request_json_decode_fallback_witness :
    (request_json RequestType.get "u" none none (some 10) malformedNet).2 =
      Except.ok (Json.obj [("response", Json.str "oops")]) ∧
    (request_json RequestType.post "u" none none (some 10) jsonNet).2 =
      Except.ok (Json.arr []) :=
  ⟨(request_json_decode_fallback RequestType.get "u" none none (some 10)
      malformedNet ⟨200, none, "oops"⟩ rfl (by decide)).1 rfl,
   (request_json_decode_fallback RequestType.post "u" none none (some 10)
      jsonNet ⟨201, some (Json.arr []), "[]"⟩ rfl (by decide)).2 (Json.arr []) rfl⟩

/-- C6: on a non-2xx response, request_json raises the HTTP-status error
carrying the request method, URL and status code, and returns no decoded
value; the single issued request is the pair's first component, so nothing
is retried. -/
theorem request_json_status_error (request_type : RequestType) (url : String)
    (headers : Option Headers) (params : Option Params) (timeout : Option ℚ)
    (net : HttpRequest → HttpResponse) (resp : HttpResponse)
    (hnet : net (request_json request_type url headers params timeout net).1 = resp)
    (hbad : ¬(200 ≤ resp.status ∧ resp.status ≤ 299)) :
    (request_json request_type url headers params timeout net).2 =
      Except.error { method := request_type.upper, url := url, status := resp.status } ∧
    ∀ j, (request_json request_type url headers params timeout net).2 ≠ Except.ok j := by
  have hsnd := request_json_snd request_type url headers params timeout net
  rw [hnet] at hsnd
  have hs : ¬(is_success resp.status = true) := fun h => hbad ((is_success_iff _).1 h)
  rw [hsnd, if_neg hs]
  exact ⟨rfl, fun j h => by simp at h⟩

/-- A network returning HTTP 404 with a plain text body. -/
def notFoundNet : HttpRequest → HttpResponse := fun _ => ⟨404, none, "not found"⟩

/-- Witness for C6 with a 404 response to a GET. -/
theorem request_json_status_error_witness :
    (request_json RequestType.get "u" none none (some 10) notFoundNet).2 =
      Except.error { method := RequestType.get.upper, url := "u", status := 404 } ∧
    (request_json RequestType.get "u" none none (some 10) notFoundNet).2 ≠
      Except.ok Json.null :=
  ⟨(request_json_status_error RequestType.get "u" none none (some 10) notFoundNet
      ⟨404, none, "not found"⟩ rfl (by decide)).1,
   (request_json_status_error RequestType.get "u" none none (some 10) notFoundNet
      ⟨404, none, "not found"⟩ rfl (by decide)).2 Json.null⟩

/-- The latitude bound as a proposition. -/
theorem latitudeValid_iff (x : ℚ) : latitudeValid x = true ↔ (-90 ≤ x ∧ x ≤ 90) := by
  simp [latitudeValid]

/-- The longitude bound as a proposition. -/
theorem longitudeValid_iff (x : ℚ) : longitudeValid x = true ↔ (-180 ≤ x ∧ x ≤ 180) := by
  simp [longitudeValid]

/-- The zoom bound as a proposition. -/
theorem zoomValid_iff (x : ℚ) : zoomValid x = true ↔ (0 ≤ x ∧ x ≤ 20) := by
  simp [zoomValid]

/-- The heading bound as a proposition. -/
theorem headingValid_iff (x : ℚ) : headingValid x = true ↔ (0 ≤ x ∧ x < 360) := by
  simp [headingValid]

/-- The pitch bound as a proposition. -/
theorem pitchValid_iff (x : ℚ) : pitchValid x = true ↔ (-90 ≤ x ∧ x ≤ 90) := by
  simp [pitchValid]

/-- The roll bound as a proposition. -/
theorem rollValid_iff (x : ℚ) : rollValid x = true ↔ (-180 ≤ x ∧ x ≤ 180) := by
  simp [rollValid]

/-- The speed bound as a proposition. -/
theorem speedValid_iff (x : ℚ) : speedValid x = true ↔ 0 ≤ x := by
  simp [speedValid]

/-- Marker payload construction succeeds exactly when both coordinates are
in range and the category choice is supplied. -/
theorem markerCreate_validate_ok_iff (tok : String) (lat lng : ℚ)
    (category : Option Int) (cname desc : Option String) :
    (∃ p, MarkerCreatePayload.validate tok lat lng category cname desc = Except.ok p) ↔
      (latitudeValid lat = true ∧ longitudeValid lng = true ∧
        ¬(category = none ∧ cname = none)) := by
  cases hla : latitudeValid lat <;> cases hlo : longitudeValid lng <;>
    cases category <;> cases cname <;>
      simp [MarkerCreatePayload.validate, MarkerCreatePayload.fieldErrors,
        checkField, hla, hlo]

/-- An optional field check passes exactly when a present value meets its
bound. -/
theorem checkOptField_eq_nil_iff (field : String) (p : ℚ → Bool) (v : Option ℚ) :
    checkOptField field p v = [] ↔ ∀ x, v = some x → p x = true := by
  cases v with
  | none => simp [checkOptField]
  | some x => cases h : p x <;> simp [checkOptField, checkField, h]

/-- The telemetry checks pass exactly when every supplied telemetry value
meets its own bound. -/
theorem telemetryErrors_eq_nil_iff (zoom heading pitch roll speed : Option ℚ) :
    telemetryErrors zoom heading pitch roll speed = [] ↔
      ((∀ x, zoom = some x → zoomValid x = true) ∧
       (∀ x, heading = some x → headingValid x = true) ∧
       (∀ x, pitch = some x → pitchValid x = true) ∧
       (∀ x, roll = some x → rollValid x = true) ∧
       (∀ x, speed = some x → speedValid x = true)) := by
  simp [telemetryErrors, List.append_eq_nil, checkOptField_eq_nil_iff]

/-- Marker-location payload construction succeeds exactly when the
coordinates are in range and the telemetry checks pass. -/
theorem markerLocation_validate_ok_iff (lat lng : ℚ)
    (zoom elevation heading pitch roll speed : Option ℚ) :
    (∃ p, MarkerLocationPayload.validate lat lng zoom elevation heading pitch roll speed =
        Except.ok p) ↔
      (latitudeValid lat = true ∧ longitudeValid lng = true ∧
        telemetryErrors zoom heading pitch roll speed = []) := by
  by_cases hT : telemetryErrors zoom heading pitch roll speed = [] <;>
    cases hla : latitudeValid lat <;> cases hlo : longitudeValid lng <;>
      simp [MarkerLocationPayload.validate, MarkerLocationPayload.fieldErrors,
        checkField, hla, hlo, hT]

/-- When some field check fails, marker-location construction fails with
exactly the collected field errors. -/
theorem markerLocation_validate_error (lat lng : ℚ)
    (zoom elevation heading pitch roll speed : Option ℚ)
    (hne : MarkerLocationPayload.fieldErrors lat lng zoom heading pitch roll speed ≠ []) :
    MarkerLocationPayload.validate lat lng zoom elevation heading pitch roll speed =
      Except.error (MarkerLocationPayload.fieldErrors lat lng zoom heading pitch roll speed) := by
  simp [MarkerLocationPayload.validate, List.isEmpty_iff, hne]

/-- A Bool characterised by a proposition is false when the proposition
fails. -/
theorem bool_eq_false_of_not {b : Bool} {P : Prop} (hiff : b = true ↔ P)
    (h : ¬P) : b = false := by
  cases hb : b
  · rfl
  · exact absurd (hiff.1 hb) h

/-- A collected field error is reported by marker-location construction. -/
theorem markerLocation_mem_error (lat lng : ℚ)
    (zoom elevation heading pitch roll speed : Option ℚ) (e : FieldError)
    (hmem : e ∈ MarkerLocationPayload.fieldErrors lat lng zoom heading pitch roll speed) :
    ∃ errs, MarkerLocationPayload.validate lat lng zoom elevation heading pitch roll speed =
      Except.error errs ∧ e ∈ errs :=
  ⟨_, markerLocation_validate_error lat lng zoom elevation heading pitch roll speed
    (List.ne_nil_of_mem hmem), hmem⟩

/-- C4: with the other fields valid, marker and marker-location payload
construction succeeds exactly when the latitude lies in the inclusive
interval from -90 to 90, failing with the latitude range error otherwise,
and symmetrically for the longitude with the inclusive interval from -180
to 180. -/
theorem coordinate_bounds (tok : String) (lat lng : ℚ) (category : Option Int)
    (cname desc : Option String)
    (zoom elevation heading pitch roll speed : Option ℚ)
    (hcat : ¬(category = none ∧ cname = none))
    (hTel : telemetryErrors zoom heading pitch roll speed = []) :
    ((-180 ≤ lng ∧ lng ≤ 180) →
      (((∃ p, MarkerCreatePayload.validate tok lat lng category cname desc = Except.ok p) ↔
          (-90 ≤ lat ∧ lat ≤ 90)) ∧
        (¬(-90 ≤ lat ∧ lat ≤ 90) →
          MarkerCreatePayload.validate tok lat lng category cname desc =
            Except.error [FieldError.range "lat"]) ∧
        ((∃ q, MarkerLocationPayload.validate lat lng zoom elevation heading pitch roll speed =
            Except.ok q) ↔ (-90 ≤ lat ∧ lat ≤ 90)) ∧
        (¬(-90 ≤ lat ∧ lat ≤ 90) →
          MarkerLocationPayload.validate lat lng zoom elevation heading pitch roll speed =
            Except.error [FieldError.range "lat"]))) ∧
    ((-90 ≤ lat ∧ lat ≤ 90) →
      (((∃ p, MarkerCreatePayload.validate tok lat lng category cname desc = Except.ok p) ↔
          (-180 ≤ lng ∧ lng ≤ 180)) ∧
        (¬(-180 ≤ lng ∧ lng ≤ 180) →
          MarkerCreatePayload.validate tok lat lng category cname desc =
            Except.error [FieldError.range "lng"]) ∧
        ((∃ q, MarkerLocationPayload.validate lat lng zoom elevation heading pitch roll speed =
            Except.ok q) ↔ (-180 ≤ lng ∧ lng ≤ 180)) ∧
        (¬(-180 ≤ lng ∧ lng ≤ 180) →
          MarkerLocationPayload.validate lat lng zoom elevation heading pitch roll speed =
            Except.error [FieldError.range "lng"]))) := by
  constructor
  · intro hlng
    have hlo : longitudeValid lng = true := (longitudeValid_iff lng).2 hlng
    refine ⟨?_, ?_, ?_, ?_⟩
    · rw [markerCreate_validate_ok_iff]
      simp [hlo, hcat, latitudeValid_iff]
    · intro hbad
      have hla : latitudeValid lat = false := bool_eq_false_of_not (latitudeValid_iff lat) hbad
      simp [MarkerCreatePayload.validate, MarkerCreatePayload.fieldErrors, checkField, hla, hlo]
    · rw [markerLocation_validate_ok_iff]
      simp [hlo, hTel, latitudeValid_iff]
    · intro hbad
      have hla : latitudeValid lat = false := bool_eq_false_of_not (latitudeValid_iff lat) hbad
      simp [MarkerLocationPayload.validate, MarkerLocationPayload.fieldErrors, checkField,
        hla, hlo, hTel]
  · intro hlat
    have hla : latitudeValid lat = true := (latitudeValid_iff lat).2 hlat
    refine ⟨?_, ?_, ?_, ?_⟩
    · rw [markerCreate_validate_ok_iff]
      simp [hla, hcat, longitudeValid_iff]
    · intro hbad
      have hlo : longitudeValid lng = false := bool_eq_false_of_not (longitudeValid_iff lng) hbad
      simp [MarkerCreatePayload.validate, MarkerCreatePayload.fieldErrors, checkField, hla, hlo]
    · rw [markerLocation_validate_ok_iff]
      simp [hla, hTel, longitudeValid_iff]
    · intro hbad
      have hlo : longitudeValid lng = false := bool_eq_false_of_not (longitudeValid_iff lng) hbad
      simp [MarkerLocationPayload.validate, MarkerLocationPayload.fieldErrors, checkField,
        hla, hlo, hTel]

/-- Witness for C4: latitude 91 is rejected with the latitude range error,
latitude 45 with longitude 10 is accepted, longitude 181 is rejected with
the longitude range error. -/
theorem coordinate_bounds_witness :
    MarkerCreatePayload.validate "t" 91 10 none (some "Sharks") none =
      Except.error [FieldError.range "lat"] ∧
    (∃ p, MarkerCreatePayload.validate "t" 45 10 none (some "Sharks") none = Except.ok p) ∧
    MarkerLocationPayload.validate 45 181 none none none none none none =
      Except.error [FieldError.range "lng"] :=
  ⟨((coordinate_bounds "t" 91 10 none (some "Sharks") none none none none none none
      none (by simp) rfl).1 (by norm_num)).2.1 (by norm_num),
   ((coordinate_bounds "t" 45 10 none (some "Sharks") none none none none none none
      none (by simp) rfl).1 (by norm_num)).1.2 (by norm_num),
   ((coordinate_bounds "t" 45 181 none (some "Sharks") none none none none none none
      none (by simp) rfl).2 (by norm_num)).2.2.2 (by norm_num)⟩

/-- C5: with valid coordinates, marker payload construction fails with the
required-choice error exactly when category and category_name are both
absent, and succeeds with either or both supplied; validation is a pure
construction-time function, involving no network oracle. -/
theorem marker_category_requirement (tok : String) (lat lng : ℚ)
    (desc : Option String) (hlat : -90 ≤ lat ∧ lat ≤ 90)
    (hlng : -180 ≤ lng ∧ lng ≤ 180) :
    MarkerCreatePayload.validate tok lat lng none none desc =
      Except.error [FieldError.requiredChoice] ∧
    (∀ cid : Int, ∃ p, MarkerCreatePayload.validate tok lat lng (some cid) none desc =
      Except.ok p) ∧
    (∀ cn : String, ∃ p, MarkerCreatePayload.validate tok lat lng none (some cn) desc =
      Except.ok p) ∧
    (∀ cid : Int, ∀ cn : String,
      ∃ p, MarkerCreatePayload.validate tok lat lng (some cid) (some cn) desc =
        Except.ok p) := by
  have hla : latitudeValid lat = true := (latitudeValid_iff lat).2 hlat
  have hlo : longitudeValid lng = true := (longitudeValid_iff lng).2 hlng
  refine ⟨?_, ?_, ?_, ?_⟩
  · simp [MarkerCreatePayload.validate, MarkerCreatePayload.fieldErrors, checkField, hla, hlo]
  · intro cid
    rw [markerCreate_validate_ok_iff]
    exact ⟨hla, hlo, by simp⟩
  · intro cn
    rw [markerCreate_validate_ok_iff]
    exact ⟨hla, hlo, by simp⟩
  · intro cid cn
    rw [markerCreate_validate_ok_iff]
    exact ⟨hla, hlo, by simp⟩

/-- Witness for C5 at coordinates 45 and 10 with category id 3 and name
Sharks. -/
theorem marker_category_requirement_witness :
    MarkerCreatePayload.validate "t" 45 10 none none none =
      Except.error [FieldError.requiredChoice] ∧
    (∃ p, MarkerCreatePayload.validate "t" 45 10 (some 3) none none = Except.ok p) ∧
    (∃ p, MarkerCreatePayload.validate "t" 45 10 none (some "Sharks") none = Except.ok p) ∧
    (∃ p, MarkerCreatePayload.validate "t" 45 10 (some 3) (some "Sharks") none = Except.ok p) :=
  ⟨(marker_category_requirement "t" 45 10 none (by norm_num) (by norm_num)).1,
   (marker_category_requirement "t" 45 10 none (by norm_num) (by norm_num)).2.1 3,
   (marker_category_requirement "t" 45 10 none (by norm_num) (by norm_num)).2.2.1 "Sharks",
   (marker_category_requirement "t" 45 10 none (by norm_num) (by norm_num)).2.2.2 3 "Sharks"⟩

/-- C7: with valid coordinates, marker-location construction succeeds
exactly when every supplied telemetry value lies in its own range (zoom in
the closed interval 0 to 20, heading in 0 inclusive to 360 exclusive,
pitch in -90 to 90, roll in -180 to 180, speed nonnegative, elevation
unconstrained), and an out-of-range value in one field yields an error
containing the range error scoped to that field. -/
theorem location_telemetry_bounds (lat lng : ℚ)
    (zoom elevation heading pitch roll speed : Option ℚ)
    (hlat : -90 ≤ lat ∧ lat ≤ 90) (hlng : -180 ≤ lng ∧ lng ≤ 180) :
    ((∃ p, MarkerLocationPayload.validate lat lng zoom elevation heading pitch roll speed =
        Except.ok p) ↔
      ((∀ x, zoom = some x → 0 ≤ x ∧ x ≤ 20) ∧
       (∀ x, heading = some x → 0 ≤ x ∧ x < 360) ∧
       (∀ x, pitch = some x → -90 ≤ x ∧ x ≤ 90) ∧
       (∀ x, roll = some x → -180 ≤ x ∧ x ≤ 180) ∧
       (∀ x, speed = some x → 0 ≤ x))) ∧
    (∀ x, zoom = some x → ¬(0 ≤ x ∧ x ≤ 20) →
      ∃ errs, MarkerLocationPayload.validate lat lng zoom elevation heading pitch roll speed =
        Except.error errs ∧ FieldError.range "zoom" ∈ errs) ∧
    (∀ x, heading = some x → ¬(0 ≤ x ∧ x < 360) →
      ∃ errs, MarkerLocationPayload.validate lat lng zoom elevation heading pitch roll speed =
        Except.error errs ∧ FieldError.range "heading" ∈ errs) ∧
    (∀ x, pitch = some x → ¬(-90 ≤ x ∧ x ≤ 90) →
      ∃ errs, MarkerLocationPayload.validate lat lng zoom elevation heading pitch roll speed =
        Except.error errs ∧ FieldError.range "pitch" ∈ errs) ∧
    (∀ x, roll = some x → ¬(-180 ≤ x ∧ x ≤ 180) →
      ∃ errs, MarkerLocationPayload.validate lat lng zoom elevation heading pitch roll speed =
        Except.error errs ∧ FieldError.range "roll" ∈ errs) ∧
    (∀ x, speed = some x → ¬(0 ≤ x) →
      ∃ errs, MarkerLocationPayload.validate lat lng zoom elevation heading pitch roll speed =
        Except.error errs ∧ FieldError.range "speed" ∈ errs) := by
  have hla : latitudeValid lat = true := (latitudeValid_iff lat).2 hlat
  have hlo : longitudeValid lng = true := (longitudeValid_iff lng).2 hlng
  refine ⟨?_, ?_, ?_, ?_, ?_, ?_⟩
  · rw [markerLocation_validate_ok_iff]
    simp [hla, hlo, telemetryErrors_eq_nil_iff, zoomValid_iff, headingValid_iff,
      pitchValid_iff, rollValid_iff, speedValid_iff]
  · intro x hx hbad
    subst hx
    have hz : zoomValid x = false := bool_eq_false_of_not (zoomValid_iff x) hbad
    exact markerLocation_mem_error lat lng (some x) elevation heading pitch roll speed _
      (by simp [MarkerLocationPayload.fieldErrors, telemetryErrors, checkOptField, checkField, hz])
  · intro x hx hbad
    subst hx
    have hz : headingValid x = false := bool_eq_false_of_not (headingValid_iff x) hbad
    exact markerLocation_mem_error lat lng zoom elevation (some x) pitch roll speed _
      (by simp [MarkerLocationPayload.fieldErrors, telemetryErrors, checkOptField, checkField, hz])
  · intro x hx hbad
    subst hx
    have hz : pitchValid x = false := bool_eq_false_of_not (pitchValid_iff x) hbad
    exact markerLocation_mem_error lat lng zoom elevation heading (some x) roll speed _
      (by simp [MarkerLocationPayload.fieldErrors, telemetryErrors, checkOptField, checkField, hz])
  · intro x hx hbad
    subst hx
    have hz : rollValid x = false := bool_eq_false_of_not (rollValid_iff x) hbad
    exact markerLocation_mem_error lat lng zoom elevation heading pitch (some x) speed _
      (by simp [MarkerLocationPayload.fieldErrors, telemetryErrors, checkOptField, checkField, hz])
  · intro x hx hbad
    subst hx
    have hz : speedValid x = false := bool_eq_false_of_not (speedValid_iff x) hbad
    exact markerLocation_mem_error lat lng zoom elevation heading pitch roll (some x) _
      (by simp [MarkerLocationPayload.fieldErrors, telemetryErrors, checkOptField, checkField, hz])

/-- Witness for C7: in-range telemetry is accepted and zoom 25 is rejected
with an error naming zoom. -/
theorem location_telemetry_bounds_witness :
    (∃ p, MarkerLocationPayload.validate 1 2 (some 5) (some 1000) (some 350) (some 0)
        (some 0) (some 3) = Except.ok p) ∧
    (∃ errs, MarkerLocationPayload.validate 1 2 (some 25) none none none none none =
        Except.error errs ∧ FieldError.range "zoom" ∈ errs) :=
  ⟨(location_telemetry_bounds 1 2 (some 5) (some 1000) (some 350) (some 0) (some 0) (some 3)
      (by norm_num) (by norm_num)).1.2
      (by refine ⟨?_, ?_, ?_, ?_, ?_⟩ <;> rintro x ⟨rfl⟩ <;> norm_num),
   (location_telemetry_bounds 1 2 (some 25) none none none none none
      (by norm_num) (by norm_num)).2.1 25 rfl (by norm_num)⟩

/-- On a 2xx response whose body decodes, request_json returns the decoded
value. -/
theorem request_json_ok_of_2xx (request_type : RequestType) (url : String)
    (headers : Option Headers) (params : Option Params) (timeout : Option ℚ)
    (net : HttpRequest → HttpResponse) (resp : HttpResponse) (j : Json)
    (hnet : net (request_json request_type url headers params timeout net).1 = resp)
    (h1 : 200 ≤ resp.status) (h2 : resp.status ≤ 299)
    (hj : resp.jsonResult = some j) :
    (request_json request_type url headers params timeout net).2 = Except.ok j := by
  have hsnd := request_json_snd request_type url headers params timeout net
  rw [hnet] at hsnd
  rw [hsnd, if_pos ((is_success_iff _).2 ⟨h1, h2⟩)]
  simp [_parse_json_response, hj]

/-- The payload of end-to-end scenario 1: title My Map, everything else
absent. -/
def myMapPayload : MapCreatePayload :=
  { title := some "My Map", slug := none, description := none, privacy := none,
    users_can_create_markers := none }

/-- C8: map_create with title My Map and all other payload fields absent
issues its single request as a POST to base/maps whose JSON body is exactly
the title pair (every other payload key is dropped by cleaning) with no
query parameters, and returns the decoded JSON of a 2xx response. -/
theorem map_create_scenario (base : String) (api_key : Option String)
    (net : HttpRequest → HttpResponse) :
    (Cartes.map_create ⟨base⟩ (some myMapPayload) api_key net).1.method = "POST" ∧
    (Cartes.map_create ⟨base⟩ (some myMapPayload) api_key net).1.url = base ++ "/maps" ∧
    (Cartes.map_create ⟨base⟩ (some myMapPayload) api_key net).1.jsonBody =
      some [("title", PValue.str "My Map")] ∧
    (Cartes.map_create ⟨base⟩ (some myMapPayload) api_key net).1.queryParams = none ∧
    (∀ resp j, net (Cartes.map_create ⟨base⟩ (some myMapPayload) api_key net).1 = resp →
      200 ≤ resp.status → resp.status ≤ 299 → resp.jsonResult = some j →
      (Cartes.map_create ⟨base⟩ (some myMapPayload) api_key net).2 = Except.ok j) := by
  refine ⟨rfl, rfl, rfl, rfl, ?_⟩
  intro resp j hnet h1 h2 hj
  exact request_json_ok_of_2xx RequestType.post (base ++ "/maps")
    (Cartes._auth_headers api_key) _ (some 10) net resp j hnet h1 h2 hj

/-- A network answering 201 Created with the created-map object. -/
def createdNet : HttpRequest → HttpResponse :=
  fun _ => ⟨201, some (Json.obj [("title", Json.str "My Map")]), "created"⟩

/-- Witness for C8 against the created-map network. -/
theorem map_create_scenario_witness :
    (Cartes.map_create ⟨"https://cartes.io/api"⟩ (some myMapPayload) none createdNet).1.jsonBody =
      some [("title", PValue.str "My Map")] ∧
    (Cartes.map_create ⟨"https://cartes.io/api"⟩ (some myMapPayload) none createdNet).2 =
      Except.ok (Json.obj [("title", Json.str "My Map")]) :=
  ⟨(map_create_scenario "https://cartes.io/api" none createdNet).2.2.1,
   (map_create_scenario "https://cartes.io/api" none createdNet).2.2.2.2
     ⟨201, some (Json.obj [("title", Json.str "My Map")]), "created"⟩
     (Json.obj [("title", Json.str "My Map")]) rfl (by norm_num) (by norm_num) rfl⟩

/-- C9: a PUT, POST or DELETE whose parameter mapping is absent or holds
only absent values still carries a JSON body, the empty object; a non-GET
request is never issued body-less. -/
theorem nonget_empty_body (request_type : RequestType) (url : String)
    (headers : Option Headers) (params : Option Params) (timeout : Option ℚ)
    (net : HttpRequest → HttpResponse)
    (hrt : request_type ≠ RequestType.get)
    (hparams : params = none ∨ ∀ kv ∈ params.getD [], kv.2 = (none : Option PValue)) :
    (request_json request_type url headers params timeout net).1.jsonBody = some [] ∧
    (∀ params2 : Option Params,
      (request_json request_type url headers params2 timeout net).1.jsonBody ≠ none) := by
  have hclean : _filter_none_values params = [] := by
    rcases hparams with h | h
    · subst h
      rfl
    · cases params with
      | none => rfl
      | some d =>
          rw [_filter_none_values, Option.getD_some, List.filterMap_eq_nil_iff]
          intro kv hkv
          have h2 := h kv (by simpa using hkv)
          simp [h2]
  constructor
  · simp [request_json, hrt, hclean]
  · intro params2
    simp [request_json, hrt]

/-- A mapping holding only absent values. -/
def allAbsentParams : Params := [("a", none), ("b", none)]

/-- Witness for C9 with a PUT and the all-absent mapping. -/
theorem nonget_empty_body_witness :
    (request_json RequestType.put "u" none (some allAbsentParams) (some 10)
      malformedNet).1.jsonBody = some [] ∧
    (request_json RequestType.put "u" none none (some 10)
      malformedNet).1.jsonBody ≠ none :=
  ⟨(nonget_empty_body RequestType.put "u" none (some allAbsentParams) (some 10)
      malformedNet (by decide) (Or.inr (by decide))).1,
   (nonget_empty_body RequestType.put "u" none (some allAbsentParams) (some 10)
      malformedNet (by decide) (Or.inr (by decide))).2 none⟩

/-- A key survives cleaning exactly when it is bound to a present value. -/
theorem mem_keys_filter_none_values (d : Params) (k : String) :
    k ∈ (_filter_none_values (some d)).map Prod.fst ↔ ∃ v, (k, some v) ∈ d := by
  rw [List.mem_map]
  constructor
  · rintro ⟨⟨k0, v0⟩, hmem, hk⟩
    cases hk
    exact ⟨v0, (mem_filter_none_values d k0 v0).1 hmem⟩
  · rintro ⟨v, hv⟩
    exact ⟨(k, v), (mem_filter_none_values d k v).2 hv, rfl⟩

/-- C10: in map_list the list-valued filters appear among the request
parameters exactly when the corresponding list is present and non-empty:
an explicit empty list is omitted just as an absent one, although generic
cleaning retains present falsy values. -/
theorem map_list_empty_list_filters (base : String) (p : MapListParams)
    (api_key : Option String) (net : HttpRequest → HttpResponse) :
    (("ids[]" ∈ ((Cartes.map_list ⟨base⟩ (some p) api_key net).1.queryParams.getD []).map Prod.fst) ↔
      ∃ l, p.ids = some l ∧ l ≠ []) ∧
    (("category_ids[]" ∈ ((Cartes.map_list ⟨base⟩ (some p) api_key net).1.queryParams.getD []).map Prod.fst) ↔
      ∃ l, p.category_ids = some l ∧ l ≠ []) ∧
    (("with[]" ∈ ((Cartes.map_list ⟨base⟩ (some p) api_key net).1.queryParams.getD []).map Prod.fst) ↔
      ∃ l, p.with_relations = some l ∧ l ≠ []) := by
  obtain ⟨ids, cids, wm, wr, ob, qry, rfm⟩ := p
  rcases ids with _ | (_ | ⟨a1, l1⟩) <;>
    rcases cids with _ | (_ | ⟨a2, l2⟩) <;>
      rcases wr with _ | (_ | ⟨a3, l3⟩) <;>
        simp [Cartes.map_list, request_json, mem_keys_filter_none_values,
          mem_filter_none_values]

/-- Filters with an explicit empty id list and a non-empty category list. -/
def emptyIdsParams : MapListParams :=
  { ids := some [], category_ids := some [3], with_mine := some false,
    with_relations := none, order_by := none, query := none,
    response_format := none }

/-- Witness for C10: the empty id list is omitted while the non-empty
category list is sent. -/
theorem map_list_empty_list_filters_witness :
    ("ids[]" ∉ ((Cartes.map_list ⟨"b"⟩ (some emptyIdsParams) none malformedNet).1.queryParams.getD []).map Prod.fst) ∧
    ("category_ids[]" ∈ ((Cartes.map_list ⟨"b"⟩ (some emptyIdsParams) none malformedNet).1.queryParams.getD []).map Prod.fst) :=
  ⟨fun h => by
      simpa [emptyIdsParams] using
        (map_list_empty_list_filters "b" emptyIdsParams none malformedNet).1.1 h,
   (map_list_empty_list_filters "b" emptyIdsParams none malformedNet).2.1.2
     ⟨[3], rfl, by simp⟩⟩

end SimpleMaps
